import Mathlib

/-!
Verification of the pdf-upload-extract-system backend.

Shallow embedding of the page classification, OCR dispatch, caching and
aggregation pipeline of backend/scripts.py, backend/tasks.py and
backend/application.py.  Python floats are modelled as rationals; the
external collaborators (PDF parser, OCR engine, Redis store) are modelled
as explicit inputs describing the outcome the collaborator produces, with
exceptions as Except values.
-/

/-- One recognized unit of text, as built by the pipeline.  Native chunks
carry no confidence; OCR chunks always carry one. -/
structure Chunk where
  text : String
  bbox : List ℚ
  page : Nat
  confidence : Option ℚ
deriving DecidableEq

/-- One line of raw OCR engine output: a polygon of points, the recognized
text, and a confidence score. -/
structure OCRLine where
  bbox : List (ℚ × ℚ)
  text : String
  confidence : ℚ
deriving DecidableEq

/-- The tuple (img_data, page_num, pdf_width, pdf_height) handed to the
batch OCR helper in scripts.py. -/
structure ImageJob where
  data : List Nat
  pageNum : Nat
  pdfWidth : ℚ
  pdfHeight : ℚ

/-- A text span from the PDF text dictionary: text plus bounding box. -/
structure Span where
  text : String
  x0 : ℚ
  y0 : ℚ
  x1 : ℚ
  y1 : ℚ
deriving DecidableEq

/-- A block of the PDF text dictionary.  Text blocks have btype 0; their
lines each hold a list of spans. -/
structure Block where
  btype : Int
  lines : List (List Span)
deriving DecidableEq

/-- Everything the PDF parser reports about one page: 0-based page number,
page rectangle width and height, text blocks, and the image count. -/
structure PageData where
  number : Nat
  width : ℚ
  height : ℚ
  blocks : List Block
  imageCount : Nat
deriving DecidableEq

/-- The per-page extraction strategy chosen by the classifier. -/
inductive Strategy where
  | NATIVE
  | OCR
deriving DecidableEq

/-- Python str.strip(): remove leading and trailing whitespace. -/
def pyStrip (s : String) : String :=
  String.mk (((s.data.dropWhile Char.isWhitespace).reverse.dropWhile
    Char.isWhitespace).reverse)

/-- Counts maximal runs of non-whitespace characters; the flag records
whether the scan is currently inside such a run. -/
def pyWordCountAux : List Char → Bool → Nat
  | [], _ => 0
  | c :: cs, inWord =>
    if c.isWhitespace then pyWordCountAux cs false
    else (if inWord then 0 else 1) + pyWordCountAux cs true

/-- Python len(s.split()): number of whitespace-separated tokens. -/
def pyWordCount (s : String) : Nat :=
  pyWordCountAux s.data false

/-- Per-line chunk construction of Helper._process_ocr_batch in scripts.py:
require a 4-point box, scale min/max coordinates, and keep the chunk when
the trimmed text is non-empty and confidence exceeds 0.5. -/
def scriptsLine (scaleX scaleY : ℚ) (pageNum : Nat) (l : OCRLine) :
    Option Chunk :=
  match l.bbox with
  | [p0, p1, p2, p3] =>
    let x0 := min (min p0.1 p1.1) (min p2.1 p3.1) * scaleX
    let y0 := min (min p0.2 p1.2) (min p2.2 p3.2) * scaleY
    let x1 := max (max p0.1 p1.1) (max p2.1 p3.1) * scaleX
    let y1 := max (max p0.2 p1.2) (max p2.2 p3.2) * scaleY
    if pyStrip l.text ≠ "" ∧ l.confidence > 1/2 then
      some ⟨pyStrip l.text, [x0, y0, x1, y1], pageNum, some l.confidence⟩
    else none
  | _ => none

/-- The per-image body of Helper._process_ocr_batch: decode gives image
width, height and engine lines; a zero dimension raises inside the
per-image handler, contributing nothing. -/
def process_ocr_image (imgWidth imgHeight : ℚ) (lines : List (Option OCRLine))
    (pageNum : Nat) (pdfWidth pdfHeight : ℚ) : List Chunk :=
  if imgWidth = 0 ∨ imgHeight = 0 then []
  else
    lines.filterMap (fun ol =>
      ol.bind (scriptsLine (pdfWidth / imgWidth) (pdfHeight / imgHeight) pageNum))

/-- Helper._process_ocr_batch of scripts.py.  The environment function
models PIL decoding plus the PaddleOCR call on one image: an exception, or
the image dimensions together with the engine output lines.  A failing
image is skipped (the per-image try/except logs and continues). -/
def process_ocr_batch
    (env : List Nat → Except String (ℚ × ℚ × List (Option OCRLine)))
    (images : List ImageJob) : List Chunk :=
  images.foldl (fun all job =>
    match env job.data with
    | .error _ => all
    | .ok (iw, ih, lines) =>
      all ++ process_ocr_image iw ih lines job.pageNum job.pdfWidth job.pdfHeight) []

/-- Per-line chunk construction of perform_ocr in tasks.py: require a
4-point box, scale min/max coordinates, and keep the chunk when the trimmed
text is non-empty and all scaled coordinates are non-negative. -/
def tasksLine (scaleX scaleY : ℚ) (pageNum : Nat) (l : OCRLine) :
    Option Chunk :=
  match l.bbox with
  | [p0, p1, p2, p3] =>
    let x0 := min (min p0.1 p1.1) (min p2.1 p3.1) * scaleX
    let y0 := min (min p0.2 p1.2) (min p2.2 p3.2) * scaleY
    let x1 := max (max p0.1 p1.1) (max p2.1 p3.1) * scaleX
    let y1 := max (max p0.2 p1.2) (max p2.2 p3.2) * scaleY
    if pyStrip l.text ≠ "" ∧ 0 ≤ x0 ∧ 0 ≤ y0 ∧ 0 ≤ x1 ∧ 0 ≤ y1 then
      some ⟨pyStrip l.text, [x0, y0, x1, y1], pageNum, some l.confidence⟩
    else none
  | _ => none

/-- The body of the Celery task perform_ocr in tasks.py.  Every exception
(empty input, decode failure, zero image dimension) is swallowed by the
blanket handler, which returns an empty list. -/
def perform_ocr
    (decode : List Nat → Except String (ℚ × ℚ × List (Option OCRLine)))
    (page_image : List Nat) (page_num : Nat)
    (pdf_width pdf_height : ℚ) : List Chunk :=
  if page_image = [] then []
  else
    match decode page_image with
    | .error _ => []
    | .ok (iw, ih, lines) =>
      if iw = 0 ∨ ih = 0 then []
      else
        lines.filterMap (fun ol =>
          ol.bind (tasksLine (pdf_width / iw) (pdf_height / ih) page_num))

/-- Celery autoretry semantics: run the attempt; a raised exception is
retried while retries remain, otherwise surfaced.  Returns the result
together with the number of attempts executed. -/
def celeryExec (attempt : Nat → Except String (List Chunk)) :
    Nat → Nat → Except String (List Chunk) × Nat
  | k, 0 => (attempt k, 1)
  | k, n + 1 =>
    match attempt k with
    | .ok r => (.ok r, 1)
    | .error _ =>
      let rest := celeryExec attempt (k + 1) n
      (rest.1, rest.2 + 1)

/-- The deployed task: the shared_task wrapper (max_retries 3) around the
perform_ocr body, whose attempt number selects the decode behaviour of
that execution. -/
def perform_ocr_task
    (decode : Nat → List Nat → Except String (ℚ × ℚ × List (Option OCRLine)))
    (page_image : List Nat) (page_num : Nat)
    (pdf_width pdf_height : ℚ) : Except String (List Chunk) × Nat :=
  celeryExec (fun k => .ok (perform_ocr (decode k) page_image page_num
    pdf_width pdf_height)) 0 3

/-- One step of the span scan of Helper.process_page in scripts.py: the
accumulator holds (page_chunks, text_area, word_count); a span with
non-empty stripped text appends a native chunk, adds its box area, and adds
its token count. -/
def scanSpan (pageNum : Nat) (acc : List Chunk × ℚ × Nat) (s : Span) :
    List Chunk × ℚ × Nat :=
  let t := pyStrip s.text
  if t ≠ "" then
    (acc.1 ++ [⟨t, [s.x0, s.y0, s.x1, s.y1], pageNum, none⟩],
     acc.2.1 + (s.x1 - s.x0) * (s.y1 - s.y0),
     acc.2.2 + pyWordCount t)
  else acc

/-- The full text-dictionary scan of Helper.process_page: iterate blocks of
type 0, their lines, their spans. -/
def scanPage (pd : PageData) : List Chunk × ℚ × Nat :=
  pd.blocks.foldl (fun acc b =>
    if b.btype = 0 then
      b.lines.foldl (fun acc2 line => line.foldl (scanSpan (pd.number + 1)) acc2) acc
    else acc) ([], 0, 0)

/-- The searchable-text chunks extracted from a page. -/
def nativeChunks (pd : PageData) : List Chunk :=
  (scanPage pd).1

/-- The accumulated text_area of a page. -/
def textArea (pd : PageData) : ℚ :=
  (scanPage pd).2.1

/-- The accumulated word_count of a page. -/
def wordCount (pd : PageData) : Nat :=
  (scanPage pd).2.2

/-- page_area = width * height. -/
def pageArea (pd : PageData) : ℚ :=
  pd.width * pd.height

/-- text_density = text_area / page_area if page_area is positive, else 0. -/
def textDensity (pd : PageData) : ℚ :=
  if pageArea pd > 0 then textArea pd / pageArea pd else 0

/-- The branch condition of Helper.process_page, with Python precedence:
(image_count greater than 2 and text_density below 0.3) or word_count below
50. -/
def ocrRouted (pd : PageData) : Bool :=
  (decide (pd.imageCount > 2) && decide (textDensity pd < 3/10)) ||
    decide (wordCount pd < 50)

/-- The strategy the classifier assigns to a page. -/
def classify (pd : PageData) : Strategy :=
  if ocrRouted pd then .OCR else .NATIVE

/-- A value as stored in the Redis cache: either a string that evaluates
back to a chunk list, or a poisoned entry whose evaluation raises. -/
inductive CacheVal where
  | good (cs : List Chunk)
  | bad
deriving DecidableEq

/-- Outcome of the redis get call for the page key: a raised connection
error, a miss, or a hit carrying the stored value. -/
inductive CacheGetResult where
  | err (msg : String)
  | miss
  | hit (v : CacheVal)
deriving DecidableEq

/-- The collaborator outcomes that one run of Helper.process_page observes:
rasterization, the cache read for the page key, the per-image decode plus
OCR engine behaviour, and the cache write. -/
structure PageEnv where
  raster : Except String (List Nat)
  cacheGet : CacheGetResult
  ocrImage : List Nat → Except String (ℚ × ℚ × List (Option OCRLine))
  cacheSet : Except String Unit

/-- Helper.process_page of scripts.py.  Exceptions from rasterization, the
cache read, evaluation of a cached entry, or the cache write reach the
page-level handler, which returns an empty list.  An OCR-routed page with a
cache hit returns the cached chunks; with OCR output it returns and caches
those chunks; with no OCR output it falls through to the native chunks. -/
def process_page (env : PageEnv) (pd : PageData) : List Chunk :=
  let page_chunks := nativeChunks pd
  if ocrRouted pd then
    match env.raster with
    | .error _ => []
    | .ok img =>
      match env.cacheGet with
      | .err _ => []
      | .hit .bad => []
      | .hit (.good cs) => cs
      | .miss =>
        let ocr_chunks := process_ocr_batch env.ocrImage
          [⟨img, pd.number + 1, pd.width, pd.height⟩]
        if ocr_chunks ≠ [] then
          match env.cacheSet with
          | .error _ => []
          | .ok _ => ocr_chunks
        else page_chunks
  else page_chunks

/-- Python truthiness coalescing used for the end_page argument: a missing
or zero end_page falls back to the page count. -/
def pyOr (e : Option Int) (t : Int) : Int :=
  match e with
  | none => t
  | some v => if v = 0 then t else v

/-- start_page = max(1, min(start_page, total_pages)). -/
def clampStart (s total : Int) : Int :=
  max 1 (min s total)

/-- end_page = min(end_page or total_pages, total_pages). -/
def clampEnd (e : Option Int) (total : Int) : Int :=
  min (pyOr e total) total

/-- An HTTP error as surfaced by the service: status code plus detail. -/
structure HTTPError where
  status : Nat
  detail : String
deriving DecidableEq

/-- The result-collection loop of Helper.process_pdf: extend the chunk list
with each non-empty per-page result. -/
def aggregate (results : List (List Chunk)) : List Chunk :=
  results.foldl (fun acc r => if r.isEmpty then acc else acc ++ r) []

/-- Helper.process_pdf of scripts.py.  The document is the parser outcome:
a failure to open, or the per-page data with each page's collaborator
environment.  The internal invalid-range HTTPException is caught by the
blanket handler and re-raised with status 500 and the stringified original
as detail. -/
def process_pdf (doc : Except String (List (PageData × PageEnv)))
    (start_page : Int) (end_page : Option Int) :
    Except HTTPError (List Chunk × Nat) :=
  match doc with
  | .error e => .error ⟨500, e⟩
  | .ok pages =>
    let total : Int := pages.length
    let s := clampStart start_page total
    let e := clampEnd end_page total
    if s > e then .error ⟨500, "400: Invalid page range"⟩
    else
      .ok (aggregate (((pages.drop (s - 1).toNat).take (e - s + 1).toNat).map
        (fun pe => process_page pe.2 pe.1)), pages.length)

/-- The decimal digit string of a natural number, most significant digit
first. -/
def natDigits (n : Nat) : List Char :=
  if n < 10 then [Nat.digitChar n]
  else natDigits (n / 10) ++ [Nat.digitChar (n % 10)]
decreasing_by exact Nat.div_lt_self (by omega) (by omega)

/-- Reads a decimal digit string back into a natural number. -/
def digitsToNat (l : List Char) : Nat :=
  l.foldl (fun a c => 10 * a + (c.toNat - 48)) 0

/-- Helper._get_cache_key of scripts.py: the f-string combining a fixed
namespace, the md5 hex digest of the hex-encoded image bytes (the digest
function is an opaque collaborator), and the page number. -/
def get_cache_key (md5hex : List Nat → String) (image_bytes : List Nat)
    (page_num : Nat) : String :=
  "ocr:" ++ md5hex image_bytes ++ ":" ++ Nat.repr page_num

/-- A Redis store as a key-value association list; setex prepends, get
finds the most recent binding. -/
def redisGet (store : List (String × CacheVal)) (k : String) :
    Option CacheVal :=
  (store.find? (fun kv => kv.1 == k)).map (fun kv => kv.2)

/-- redis setex: bind the key to the value (the expiry is retained as data
but plays no role in lookups within one request). -/
def redisSetex (store : List (String × CacheVal)) (k : String)
    (_ttl : Nat) (v : CacheVal) : List (String × CacheVal) :=
  (k, v) :: store

/-- The whitespace-token count of the page, written as a nested sum over
the spans of the type-0 blocks, as the specification describes it. -/
def spanWordSum (pd : PageData) : Nat :=
  (pd.blocks.map (fun b =>
    if b.btype = 0 then
      (b.lines.map (fun line =>
        (line.map (fun s => pyWordCount (pyStrip s.text))).sum)).sum
    else 0)).sum

theorem pyWordCount_empty : pyWordCount "" = 0 := rfl

theorem scanSpan_wc (pn : Nat) (acc : List Chunk × ℚ × Nat) (s : Span) :
    (scanSpan pn acc s).2.2 = acc.2.2 + pyWordCount (pyStrip s.text) := by
  by_cases h : pyStrip s.text ≠ ""
  · simp [scanSpan, h]
  · push_neg at h
    simp [scanSpan, h, pyWordCount_empty]

theorem foldl_spans_wc (pn : Nat) (spans : List Span)
    (acc : List Chunk × ℚ × Nat) :
    (spans.foldl (scanSpan pn) acc).2.2 =
      acc.2.2 + (spans.map (fun s => pyWordCount (pyStrip s.text))).sum := by
  induction spans generalizing acc with
  | nil => simp
  | cons s rest ih => simp [ih, scanSpan_wc, Nat.add_assoc]

theorem foldl_lines_wc (pn : Nat) (ls : List (List Span))
    (acc : List Chunk × ℚ × Nat) :
    (ls.foldl (fun a line => line.foldl (scanSpan pn) a) acc).2.2 =
      acc.2.2 + (ls.map (fun line =>
        (line.map (fun s => pyWordCount (pyStrip s.text))).sum)).sum := by
  induction ls generalizing acc with
  | nil => simp
  | cons l rest ih => simp [ih, foldl_spans_wc, Nat.add_assoc]

theorem wordCount_eq_spanWordSum (pd : PageData) :
    wordCount pd = spanWordSum pd := by
  suffices h : ∀ (bs : List Block) (acc : List Chunk × ℚ × Nat),
      (bs.foldl (fun a b =>
        if b.btype = 0 then
          b.lines.foldl (fun a2 line => line.foldl (scanSpan (pd.number + 1)) a2) a
        else a) acc).2.2 =
      acc.2.2 + (bs.map (fun b =>
        if b.btype = 0 then
          (b.lines.map (fun line =>
            (line.map (fun s => pyWordCount (pyStrip s.text))).sum)).sum
        else 0)).sum by
    simpa [wordCount, scanPage, spanWordSum] using h pd.blocks ([], 0, 0)
  intro bs
  induction bs with
  | nil => simp
  | cons b rest ih =>
    intro acc
    by_cases hb : b.btype = 0
    · simp [hb, ih, foldl_lines_wc, Nat.add_assoc]
    · simp [hb, ih]

/-- C1: the classifier routes a page to OCR exactly when (imageCount above
2 and textDensity below 0.3) or wordCount below 50, and NATIVE otherwise;
textDensity is the accumulated span area over the page area, 0 when the
page area is not positive, and wordCount is the whitespace-token count over
the span texts. -/
theorem C1_classifier (pd : PageData) :
    (classify pd = .OCR ↔
      ((pd.imageCount > 2 ∧ textDensity pd < 3/10) ∨ wordCount pd < 50))
    ∧ (classify pd = .NATIVE ↔
      ¬((pd.imageCount > 2 ∧ textDensity pd < 3/10) ∨ wordCount pd < 50))
    ∧ wordCount pd = spanWordSum pd
    ∧ (pageArea pd ≤ 0 → textDensity pd = 0)
    ∧ (0 < pageArea pd → textDensity pd = textArea pd / pageArea pd) := by
  have hocr : ocrRouted pd = true ↔
      ((pd.imageCount > 2 ∧ textDensity pd < 3/10) ∨ wordCount pd < 50) := by
    simp [ocrRouted]
  refine ⟨?_, ?_, wordCount_eq_spanWordSum pd, ?_, ?_⟩
  · rw [← hocr]
    by_cases h : ocrRouted pd <;> simp [classify, h]
  · rw [← hocr]
    by_cases h : ocrRouted pd <;> simp [classify, h]
  · intro h
    have : ¬ pageArea pd > 0 := by linarith
    simp [textDensity, this]
  · intro h
    simp [textDensity, h]

theorem aggregate_foldl (rs : List (List Chunk)) (acc : List Chunk) :
    rs.foldl (fun a r => if r.isEmpty then a else a ++ r) acc =
      acc ++ rs.flatten := by
  induction rs generalizing acc with
  | nil => simp
  | cons r rest ih =>
    rw [List.foldl_cons, ih, List.flatten_cons]
    by_cases h : r.isEmpty
    · rw [if_pos h, List.isEmpty_iff.mp h]
      simp
    · rw [if_neg h, List.append_assoc]

theorem aggregate_eq_flatten (rs : List (List Chunk)) :
    aggregate rs = rs.flatten := by
  rw [aggregate, aggregate_foldl rs []]
  simp

theorem perm_flatten {α : Type} {l₁ l₂ : List (List α)} (h : l₁.Perm l₂) :
    l₁.flatten.Perm l₂.flatten := by
  induction h with
  | nil => rfl
  | cons x _ ih => simpa using ih.append_left x
  | swap x y l =>
    simp only [List.flatten_cons, ← List.append_assoc]
    exact (List.perm_append_comm).append_right l.flatten
  | trans _ _ ih₁ ih₂ => exact ih₁.trans ih₂

/-- C7: the collection loop of process_pdf is lossless — its output is
exactly the concatenation of the per-page chunk lists, hence the same
multiset as their union — and permuting the arrival order of per-page
results permutes the output, leaving the multiset of chunks unchanged. -/
theorem C7_aggregate (rs rs2 : List (List Chunk)) (h : rs.Perm rs2) :
    aggregate rs = rs.flatten ∧ (aggregate rs).Perm (aggregate rs2) := by
  refine ⟨aggregate_eq_flatten rs, ?_⟩
  rw [aggregate_eq_flatten, aggregate_eq_flatten]
  exact perm_flatten h

/-- Witness for C7 at a concrete pair of inputs: two one-chunk pages
arriving in either order. -/
theorem C7_aggregate_witness :
    aggregate [[⟨"a", [], 1, none⟩], [⟨"b", [], 2, none⟩]] =
        [[(⟨"a", [], 1, none⟩ : Chunk)], [⟨"b", [], 2, none⟩]].flatten ∧
      (aggregate [[⟨"a", [], 1, none⟩], [⟨"b", [], 2, none⟩]]).Perm
        (aggregate [[⟨"b", [], 2, none⟩], [⟨"a", [], 1, none⟩]]) :=
  C7_aggregate _ _ (List.Perm.swap _ _ [])

theorem digitChar_val (d : Nat) (h : d < 10) :
    (Nat.digitChar d).toNat - 48 = d := by
  interval_cases d <;> rfl

theorem natDigits_lt (n : Nat) (h : n < 10) :
    natDigits n = [Nat.digitChar n] := by
  rw [natDigits]
  exact if_pos h

theorem natDigits_ge (n : Nat) (h : ¬ n < 10) :
    natDigits n = natDigits (n / 10) ++ [Nat.digitChar (n % 10)] := by
  conv_lhs => rw [natDigits]
  exact if_neg h

theorem natDigits_toDigitsCore (f : Nat) :
    ∀ (n : Nat) (acc : List Char), n < f →
      Nat.toDigitsCore 10 f n acc = natDigits n ++ acc := by
  induction f with
  | zero => intro n acc h; omega
  | succ f ih =>
    intro n acc h
    rw [Nat.toDigitsCore]
    by_cases h0 : n / 10 = 0
    · have hn : n < 10 := by omega
      rw [if_pos h0, natDigits_lt n hn, Nat.mod_eq_of_lt hn]
      simp
    · have hlt : n / 10 < f := by
        have h1 : n / 10 < n := Nat.div_lt_self (by omega) (by omega)
        omega
      rw [if_neg h0, ih (n / 10) _ hlt, natDigits_ge n (by omega),
        List.append_assoc]
      simp

theorem foldl_natDigits (n : Nat) :
    ∀ a : Nat, (natDigits n).foldl (fun a c => 10 * a + (c.toNat - 48)) a =
      a * 10 ^ (natDigits n).length + n := by
  induction n using Nat.strong_induction_on with
  | _ n ih =>
    intro a
    by_cases h : n < 10
    · rw [natDigits_lt n h]
      simp [digitChar_val n h]
      ring
    · rw [natDigits_ge n h, List.foldl_append]
      have hlt : n / 10 < n := Nat.div_lt_self (by omega) (by omega)
      rw [ih (n / 10) hlt a]
      simp [digitChar_val (n % 10) (Nat.mod_lt n (by omega)), List.length_append]
      rw [Nat.pow_succ]
      have := Nat.div_add_mod n 10
      ring_nf
      omega

theorem digitsToNat_natDigits (n : Nat) : digitsToNat (natDigits n) = n := by
  rw [digitsToNat, foldl_natDigits n 0]
  simp

theorem natDigits_injective : Function.Injective natDigits := by
  intro a b h
  rw [← digitsToNat_natDigits a, ← digitsToNat_natDigits b, h]

theorem natRepr_injective : Function.Injective Nat.repr := by
  intro a b h
  have ha : Nat.repr a = (natDigits a).asString := by
    rw [Nat.repr, Nat.toDigits,
      natDigits_toDigitsCore (a + 1) a [] (Nat.lt_succ_self a)]
    simp
  have hb : Nat.repr b = (natDigits b).asString := by
    rw [Nat.repr, Nat.toDigits,
      natDigits_toDigitsCore (b + 1) b [] (Nat.lt_succ_self b)]
    simp
  rw [ha, hb] at h
  have hd : natDigits a = natDigits b := congrArg String.data h
  exact natDigits_injective hd

theorem string_append_left_cancel {p x y : String} (h : p ++ x = p ++ y) :
    x = y := by
  have hd : (p ++ x).data = (p ++ y).data := congrArg String.data h
  rw [String.data_append, String.data_append] at hd
  exact String.ext (List.append_cancel_left hd)

theorem get_cache_key_inj (md5hex : List Nat → String) (bytes : List Nat)
    {p p2 : Nat}
    (h : get_cache_key md5hex bytes p = get_cache_key md5hex bytes p2) :
    p = p2 := by
  rw [get_cache_key, get_cache_key] at h
  exact natRepr_injective (string_append_left_cancel h)

/-- C3: with the key derivation of scripts.py, a setex followed by a get
with the same image bytes and page number returns exactly the stored chunk
sequence, while a get with the same bytes and a different page number is
still a miss whenever that other key had no prior entry: the page number is
part of the derived key. -/
theorem C3_cache_roundtrip (md5hex : List Nat → String) (bytes : List Nat)
    (p p2 : Nat) (cs : List Chunk) (store : List (String × CacheVal))
    (hne : p ≠ p2)
    (habsent : redisGet store (get_cache_key md5hex bytes p2) = none) :
    redisGet (redisSetex store (get_cache_key md5hex bytes p) 3600 (.good cs))
        (get_cache_key md5hex bytes p) = some (.good cs)
    ∧ redisGet (redisSetex store (get_cache_key md5hex bytes p) 3600 (.good cs))
        (get_cache_key md5hex bytes p2) = none := by
  constructor
  · simp [redisGet, redisSetex, List.find?_cons]
  · have hk : get_cache_key md5hex bytes p ≠ get_cache_key md5hex bytes p2 :=
      fun hkeq => hne (get_cache_key_inj md5hex bytes hkeq)
    have hbeq : (get_cache_key md5hex bytes p == get_cache_key md5hex bytes p2)
        = false := beq_eq_false_iff_ne.mpr hk
    simp only [redisGet, redisSetex, List.find?_cons, hbeq]
    simpa [redisGet] using habsent

/-- Witness for C3 at concrete inputs: empty bytes, pages 0 and 1, an empty
store, a constant digest function. -/
theorem C3_cache_roundtrip_witness :
    redisGet (redisSetex [] (get_cache_key (fun _ => "d") [] 0) 3600
        (.good [])) (get_cache_key (fun _ => "d") [] 0) = some (.good [])
    ∧ redisGet (redisSetex [] (get_cache_key (fun _ => "d") [] 0) 3600
        (.good [])) (get_cache_key (fun _ => "d") [] 1) = none :=
  C3_cache_roundtrip (fun _ => "d") [] 0 1 [] [] (by decide) rfl

/-- C8: whenever the pipeline returns successfully, the returned totalPages
is the page count of the whole document, regardless of the requested
subrange. -/
theorem C8_totalPages (doc : List (PageData × PageEnv)) (s : Int)
    (e : Option Int) (cs : List Chunk) (t : Nat)
    (h : process_pdf (.ok doc) s e = .ok (cs, t)) : t = doc.length := by
  simp only [process_pdf] at h
  split at h
  · cases h
  · cases h
    rfl

/-- Witness for C8: a one-page document processed over the range 1 to 1. -/
theorem C8_totalPages_witness :
    (1 : Nat) = [((⟨0, 1, 1, [], 0⟩ : PageData),
      (⟨.error "x", .miss, fun _ => .error "x", .ok ()⟩ : PageEnv))].length :=
  C8_totalPages [(⟨0, 1, 1, [], 0⟩, ⟨.error "x", .miss, fun _ => .error "x",
    .ok ()⟩)] 1 none [] 1 rfl

/-- C4 counterexample: the end bound is not clamped into the interval from
1 to totalPages — with end page -3 on a 10-page document the clamped end
bound is -3, below 1 (the request then fails, but the claimed clamping
into the interval does not happen). -/
theorem C4_counterexample :
    clampEnd (some (-3)) 10 = -3 ∧ ¬(1 ≤ clampEnd (some (-3)) 10) := by
  decide

/-- C4 amended: the start bound is clamped into the interval from 1 to
totalPages on a non-empty document; the end bound is only clamped from
above to totalPages (an omitted or zero end defaults to totalPages); the
request with start 0 and end 999 on a 10-page document processes exactly
pages 1 through 10; and whenever the clamped start exceeds the clamped end
the request fails with the invalid-range error, independently of any page
content, before any page work begins. -/
theorem C4_amended :
    (∀ s total : Int, 1 ≤ total →
      1 ≤ clampStart s total ∧ clampStart s total ≤ total)
    ∧ (∀ (e : Option Int) (total : Int), 0 ≤ total → clampEnd e total ≤ total)
    ∧ (∀ pages : List (PageData × PageEnv), pages.length = 10 →
      process_pdf (.ok pages) 0 (some 999) =
        .ok (aggregate (pages.map (fun pe => process_page pe.2 pe.1)), 10))
    ∧ (∀ (pages : List (PageData × PageEnv)) (s : Int) (e : Option Int),
      clampStart s pages.length > clampEnd e pages.length →
        process_pdf (.ok pages) s e = .error ⟨500, "400: Invalid page range"⟩) := by
  refine ⟨?_, ?_, ?_, ?_⟩
  · intro s total h
    constructor
    · simp [clampStart]
    · simp only [clampStart, max_le_iff]
      exact ⟨h, min_le_right s total⟩
  · intro e total h
    simp [clampEnd]
  · intro pages hlen
    have hs : clampStart 0 (pages.length : Int) = 1 := by
      rw [hlen]; decide
    have he : clampEnd (some 999) (pages.length : Int) = 10 := by
      rw [hlen]; decide
    simp only [process_pdf, hs, he]
    rw [if_neg (by decide), show ((1 : Int) - 1).toNat = 0 from rfl,
      show ((10 : Int) - 1 + 1).toNat = 10 from by decide,
      List.drop_zero, List.take_of_length_le (by omega), hlen]
  · intro pages s e hc
    simp only [process_pdf]
    rw [if_pos hc]

/-- Witness for C4 at concrete inputs: a singleton total for the clamping
bounds, a concrete 10-page document for the example range, and the empty
document with start 1 for the failing range. -/
theorem C4_amended_witness :
    (1 ≤ clampStart 5 1 ∧ clampStart 5 1 ≤ 1)
    ∧ clampEnd none 1 ≤ 1
    ∧ process_pdf (.ok (List.replicate 10
        ((⟨0, 1, 1, [], 0⟩ : PageData),
         (⟨.error "x", .miss, fun _ => .error "x", .ok ()⟩ : PageEnv)))) 0
        (some 999) =
      .ok (aggregate ((List.replicate 10
        ((⟨0, 1, 1, [], 0⟩ : PageData),
         (⟨.error "x", .miss, fun _ => .error "x", .ok ()⟩ : PageEnv))).map
          (fun pe => process_page pe.2 pe.1)), 10)
    ∧ process_pdf (.ok ([] : List (PageData × PageEnv))) 1 none =
      .error ⟨500, "400: Invalid page range"⟩ :=
  ⟨C4_amended.1 5 1 (by decide),
   C4_amended.2.1 none 1 (by decide),
   C4_amended.2.2.1 _ (by simp),
   C4_amended.2.2.2 [] 1 none (by decide)⟩

/-- What the local batch path guarantees about an emitted chunk: it comes
from an engine line with a 4-point box, its trimmed text is non-empty, its
confidence exceeds 0.5, and all four box coordinates are the min/max corner
coordinates rescaled by the given scale factors. -/
def scriptsChunkSpec (lines : List (Option OCRLine)) (scaleX scaleY : ℚ)
    (pageNum : Nat) (c : Chunk) : Prop :=
  ∃ l : OCRLine, some l ∈ lines ∧ ∃ p0 p1 p2 p3 : ℚ × ℚ,
    l.bbox = [p0, p1, p2, p3] ∧ pyStrip l.text ≠ "" ∧ l.confidence > 1/2 ∧
    c = ⟨pyStrip l.text,
      [min (min p0.1 p1.1) (min p2.1 p3.1) * scaleX,
       min (min p0.2 p1.2) (min p2.2 p3.2) * scaleY,
       max (max p0.1 p1.1) (max p2.1 p3.1) * scaleX,
       max (max p0.2 p1.2) (max p2.2 p3.2) * scaleY],
      pageNum, some l.confidence⟩

/-- What the remote task path guarantees about an emitted chunk: it comes
from an engine line with a 4-point box, its trimmed text is non-empty, all
four rescaled box coordinates are non-negative, and the chunk carries the
rescaled coordinates and the line confidence unchanged. -/
def tasksChunkSpec (lines : List (Option OCRLine)) (scaleX scaleY : ℚ)
    (pageNum : Nat) (c : Chunk) : Prop :=
  ∃ l : OCRLine, some l ∈ lines ∧ ∃ p0 p1 p2 p3 : ℚ × ℚ,
    l.bbox = [p0, p1, p2, p3] ∧ pyStrip l.text ≠ "" ∧
    0 ≤ min (min p0.1 p1.1) (min p2.1 p3.1) * scaleX ∧
    0 ≤ min (min p0.2 p1.2) (min p2.2 p3.2) * scaleY ∧
    0 ≤ max (max p0.1 p1.1) (max p2.1 p3.1) * scaleX ∧
    0 ≤ max (max p0.2 p1.2) (max p2.2 p3.2) * scaleY ∧
    c = ⟨pyStrip l.text,
      [min (min p0.1 p1.1) (min p2.1 p3.1) * scaleX,
       min (min p0.2 p1.2) (min p2.2 p3.2) * scaleY,
       max (max p0.1 p1.1) (max p2.1 p3.1) * scaleX,
       max (max p0.2 p1.2) (max p2.2 p3.2) * scaleY],
      pageNum, some l.confidence⟩

theorem scriptsLine_spec {scaleX scaleY : ℚ} {pageNum : Nat} {l : OCRLine}
    {c : Chunk} (h : scriptsLine scaleX scaleY pageNum l = some c) :
    ∃ p0 p1 p2 p3 : ℚ × ℚ,
      l.bbox = [p0, p1, p2, p3] ∧ pyStrip l.text ≠ "" ∧ l.confidence > 1/2 ∧
      c = ⟨pyStrip l.text,
        [min (min p0.1 p1.1) (min p2.1 p3.1) * scaleX,
         min (min p0.2 p1.2) (min p2.2 p3.2) * scaleY,
         max (max p0.1 p1.1) (max p2.1 p3.1) * scaleX,
         max (max p0.2 p1.2) (max p2.2 p3.2) * scaleY],
        pageNum, some l.confidence⟩ := by
  simp only [scriptsLine] at h
  split at h
  · next p0 p1 p2 p3 heq =>
    split at h
    · next hcond =>
      refine ⟨p0, p1, p2, p3, heq, hcond.1, hcond.2, ?_⟩
      exact (Option.some.injEq _ _).mp h.symm
    · cases h
  · cases h

theorem tasksLine_spec {scaleX scaleY : ℚ} {pageNum : Nat} {l : OCRLine}
    {c : Chunk} (h : tasksLine scaleX scaleY pageNum l = some c) :
    ∃ p0 p1 p2 p3 : ℚ × ℚ,
      l.bbox = [p0, p1, p2, p3] ∧ pyStrip l.text ≠ "" ∧
      0 ≤ min (min p0.1 p1.1) (min p2.1 p3.1) * scaleX ∧
      0 ≤ min (min p0.2 p1.2) (min p2.2 p3.2) * scaleY ∧
      0 ≤ max (max p0.1 p1.1) (max p2.1 p3.1) * scaleX ∧
      0 ≤ max (max p0.2 p1.2) (max p2.2 p3.2) * scaleY ∧
      c = ⟨pyStrip l.text,
        [min (min p0.1 p1.1) (min p2.1 p3.1) * scaleX,
         min (min p0.2 p1.2) (min p2.2 p3.2) * scaleY,
         max (max p0.1 p1.1) (max p2.1 p3.1) * scaleX,
         max (max p0.2 p1.2) (max p2.2 p3.2) * scaleY],
        pageNum, some l.confidence⟩ := by
  simp only [tasksLine] at h
  split at h
  · next p0 p1 p2 p3 heq =>
    split at h
    · next hcond =>
      refine ⟨p0, p1, p2, p3, heq, hcond.1, hcond.2.1, hcond.2.2.1,
        hcond.2.2.2.1, hcond.2.2.2.2, ?_⟩
      exact (Option.some.injEq _ _).mp h.symm
    · cases h
  · cases h

/-- C2 amended: both OCR paths rescale all four box coordinates by
scaleX = pdfWidth / imageWidth and scaleY = pdfHeight / imageHeight; the
local batch path discards a candidate exactly on empty trimmed text or
confidence at or below 0.5 and performs no negative-coordinate check, while
the remote task path discards a candidate exactly on empty trimmed text or
a negative scaled coordinate and performs no confidence check. -/
theorem C2_emitted_chunks :
    (∀ (iw ih : ℚ) (lines : List (Option OCRLine)) (pn : Nat) (w h : ℚ)
      (c : Chunk), c ∈ process_ocr_image iw ih lines pn w h →
        scriptsChunkSpec lines (w / iw) (h / ih) pn c)
    ∧ (∀ (decode : List Nat → Except String (ℚ × ℚ × List (Option OCRLine)))
      (img : List Nat) (pn : Nat) (w h iw ih : ℚ)
      (lines : List (Option OCRLine)) (c : Chunk),
        decode img = .ok (iw, ih, lines) → c ∈ perform_ocr decode img pn w h →
          tasksChunkSpec lines (w / iw) (h / ih) pn c) := by
  constructor
  · intro iw ih lines pn w h c hc
    simp only [process_ocr_image] at hc
    split at hc
    · cases hc
    · obtain ⟨ol, holmem, holbind⟩ := List.mem_filterMap.mp hc
      obtain ⟨l, rfl, hline⟩ := Option.bind_eq_some.mp holbind
      obtain ⟨p0, p1, p2, p3, heq, ht, hconf, hchunk⟩ := scriptsLine_spec hline
      exact ⟨l, holmem, p0, p1, p2, p3, heq, ht, hconf, hchunk⟩
  · intro decode img pn w h iw ih lines c hdec hc
    simp only [perform_ocr] at hc
    split at hc
    · cases hc
    · rw [hdec] at hc
      simp only at hc
      split at hc
      · cases hc
      · obtain ⟨ol, holmem, holbind⟩ := List.mem_filterMap.mp hc
        obtain ⟨l, rfl, hline⟩ := Option.bind_eq_some.mp holbind
        obtain ⟨p0, p1, p2, p3, heq, ht, h0, h1, h2, h3, hchunk⟩ :=
          tasksLine_spec hline
        exact ⟨l, holmem, p0, p1, p2, p3, heq, ht, h0, h1, h2, h3, hchunk⟩

/-- C2 counterexample: the local batch path emits a chunk one of whose
scaled coordinates is negative (no negative-coordinate filter exists
there), and the remote task path emits a chunk whose confidence is 0.1, at
or below the 0.5 threshold (no confidence filter exists there); so the
three discard conditions do not all hold on every emitted chunk. -/
theorem C2_counterexample :
    process_ocr_image 1 1
        [some ⟨[(-2, 0), (1, 0), (1, 1), (-2, 1)], "hi", 9/10⟩] 3 1 1 =
      [⟨"hi", [-2, 0, 1, 1], 3, some (9/10)⟩]
    ∧ ((-2 : ℚ) < 0)
    ∧ perform_ocr (fun _ => .ok (1, 1,
        [some ⟨[(0, 0), (1, 0), (1, 1), (0, 1)], "lo", 1/10⟩])) [7] 4 1 1 =
      [⟨"lo", [0, 0, 1, 1], 4, some (1/10)⟩]
    ∧ ((1/10 : ℚ) ≤ 1/2) := by
  refine ⟨?_, by norm_num, ?_, by norm_num⟩
  · simp only [process_ocr_image, scriptsLine, List.filterMap, Option.bind]
    norm_num [show pyStrip "hi" = "hi" from by decide,
      show ¬("hi" : String) = "" from by decide]
  · simp only [perform_ocr, tasksLine, List.filterMap, Option.bind]
    norm_num [show pyStrip "lo" = "lo" from by decide,
      show ¬("lo" : String) = "" from by decide]

/-- Witness for C2 at concrete inputs: one well-formed line through each
path, with the guarantees instantiated. -/
theorem C2_emitted_chunks_witness :
    scriptsChunkSpec [some ⟨[(0, 0), (2, 0), (2, 2), (0, 2)], "ok", 9/10⟩]
        (1 / 1) (1 / 1) 5 ⟨"ok", [0, 0, 2, 2], 5, some (9/10)⟩
    ∧ tasksChunkSpec [some ⟨[(0, 0), (2, 0), (2, 2), (0, 2)], "ok", 9/10⟩]
        (1 / 1) (1 / 1) 6 ⟨"ok", [0, 0, 2, 2], 6, some (9/10)⟩ := by
  constructor
  · refine C2_emitted_chunks.1 1 1
      [some ⟨[(0, 0), (2, 0), (2, 2), (0, 2)], "ok", 9/10⟩] 5 1 1
      ⟨"ok", [0, 0, 2, 2], 5, some (9/10)⟩ ?_
    simp only [process_ocr_image, scriptsLine, List.filterMap, Option.bind]
    norm_num [show pyStrip "ok" = "ok" from by decide,
      show ¬("ok" : String) = "" from by decide]
  · refine C2_emitted_chunks.2 (fun _ => .ok (1, 1,
      [some ⟨[(0, 0), (2, 0), (2, 2), (0, 2)], "ok", 9/10⟩])) [7] 6 1 1 1 1
      [some ⟨[(0, 0), (2, 0), (2, 2), (0, 2)], "ok", 9/10⟩]
      ⟨"ok", [0, 0, 2, 2], 6, some (9/10)⟩ rfl ?_
    simp only [perform_ocr, tasksLine, List.filterMap, Option.bind]
    norm_num [show pyStrip "ok" = "ok" from by decide,
      show ¬("ok" : String) = "" from by decide]

/-- C10: on an OCR-routed page with successful rasterization, a cache hit
returns exactly the cached chunks; a miss with non-empty OCR output and a
successful cache write returns exactly the OCR chunks; the natively
extracted spans are returned only when there is no hit and OCR yields
nothing. -/
theorem C10_ocr_overrides_native (pd : PageData) (env : PageEnv)
    (img : List Nat) (h : ocrRouted pd = true) (hr : env.raster = .ok img) :
    (∀ cs, env.cacheGet = .hit (.good cs) → process_page env pd = cs)
    ∧ (∀ cs, env.cacheGet = .miss →
        process_ocr_batch env.ocrImage
          [⟨img, pd.number + 1, pd.width, pd.height⟩] = cs →
        cs ≠ [] → env.cacheSet = .ok () → process_page env pd = cs)
    ∧ (env.cacheGet = .miss →
        process_ocr_batch env.ocrImage
          [⟨img, pd.number + 1, pd.width, pd.height⟩] = [] →
        process_page env pd = nativeChunks pd) := by
  refine ⟨?_, ?_, ?_⟩
  · intro cs hget
    simp [process_page, h, hr, hget]
  · intro cs hget hocr hne hset
    simp [process_page, h, hr, hget, hocr, hne, hset]
  · intro hget hocr
    simp [process_page, h, hr, hget, hocr]

/-- Witness for C10: a spanless page routed to OCR, under a cache-hit
environment, an OCR-success environment, and an OCR-empty environment. -/
theorem C10_ocr_overrides_native_witness :
    process_page ⟨.ok [], .hit (.good [⟨"c", [], 1, some 1⟩]),
        fun _ => .error "x", .ok ()⟩ ⟨0, 1, 1, [], 0⟩ = [⟨"c", [], 1, some 1⟩]
    ∧ process_page ⟨.ok [], .miss,
        fun _ => .ok (1, 1, [some ⟨[(0, 0), (2, 0), (2, 2), (0, 2)], "w", 9/10⟩]),
        .ok ()⟩ ⟨0, 1, 1, [], 0⟩ = [⟨"w", [0, 0, 2, 2], 1, some (9/10)⟩]
    ∧ process_page ⟨.ok [], .miss, fun _ => .error "x", .ok ()⟩
        ⟨0, 1, 1, [], 0⟩ = nativeChunks ⟨0, 1, 1, [], 0⟩ := by
  refine ⟨?_, ?_, ?_⟩
  · exact (C10_ocr_overrides_native ⟨0, 1, 1, [], 0⟩ _ [] rfl rfl).1
      [⟨"c", [], 1, some 1⟩] rfl
  · refine (C10_ocr_overrides_native ⟨0, 1, 1, [], 0⟩ _ [] rfl rfl).2.1
      [⟨"w", [0, 0, 2, 2], 1, some (9/10)⟩] rfl ?_ (by simp) rfl
    simp only [process_ocr_batch, process_ocr_image, scriptsLine,
      List.foldl, List.filterMap, Option.bind]
    norm_num [show pyStrip "w" = "w" from by decide,
      show ¬("w" : String) = "" from by decide]
  · exact (C10_ocr_overrides_native ⟨0, 1, 1, [], 0⟩ _ [] rfl rfl).2.2 rfl rfl

/-- C5 counterexample: a page holding one native span (one word, so it is
routed to OCR) whose OCR engine call raises.  The engine exception is
caught inside the batch helper, so the page contributes its native span,
not an empty chunk sequence. -/
theorem C5_counterexample :
    process_page ⟨.ok [], .miss, fun _ => .error "engine down", .ok ()⟩
        ⟨0, 100, 100, [⟨0, [[⟨"hello", 0, 0, 1, 1⟩]]⟩], 0⟩ =
      [⟨"hello", [0, 0, 1, 1], 1, none⟩]
    ∧ ([(⟨"hello", [0, 0, 1, 1], 1, none⟩ : Chunk)] : List Chunk) ≠ [] :=
  ⟨rfl, by simp⟩

/-- C5 amended: a failure reaching the page-level handler (such as a
rasterization failure) makes the page contribute an empty chunk sequence;
an OCR engine exception is caught inside the batch helper and the page
falls back to its native spans; and on a non-empty document the request
succeeds with every page contributing independently through the collection
loop. -/
theorem C5_page_failures :
    (∀ (pd : PageData) (env : PageEnv) (msg : String), ocrRouted pd = true →
      env.raster = .error msg → process_page env pd = [])
    ∧ (∀ (pd : PageData) (env : PageEnv) (img : List Nat) (emsg : String),
      ocrRouted pd = true → env.raster = .ok img → env.cacheGet = .miss →
      env.ocrImage img = .error emsg → process_page env pd = nativeChunks pd)
    ∧ (∀ pages : List (PageData × PageEnv), pages ≠ [] →
      process_pdf (.ok pages) 1 none =
        .ok (aggregate (pages.map (fun pe => process_page pe.2 pe.1)),
          pages.length)) := by
  refine ⟨?_, ?_, ?_⟩
  · intro pd env msg h hr
    simp [process_page, h, hr]
  · intro pd env img emsg h hr hget hocr
    have hb : process_ocr_batch env.ocrImage
        [⟨img, pd.number + 1, pd.width, pd.height⟩] = [] := by
      simp [process_ocr_batch, hocr]
    simp [process_page, h, hr, hget, hb]
  · intro pages hne
    have hlen : 1 ≤ (pages.length : Int) := by
      have := List.length_pos.mpr hne
      omega
    have h1 : clampStart 1 pages.length = 1 := by
      simp only [clampStart, min_eq_left hlen]
      decide
    have h2 : clampEnd none pages.length = pages.length := by
      simp [clampEnd, pyOr]
    simp only [process_pdf, h1, h2]
    rw [if_neg (by omega), show ((1 : Int) - 1).toNat = 0 from rfl,
      List.drop_zero]
    have h3 : ((pages.length : Int) - 1 + 1).toNat = pages.length := by omega
    rw [h3, List.take_length]

/-- Witness for C5 at concrete inputs: a rasterization failure on a
spanless page, an engine failure on a one-span page, and a one-page
document processed end to end. -/
theorem C5_page_failures_witness :
    process_page ⟨.error "raster", .miss, fun _ => .error "x", .ok ()⟩
        ⟨0, 1, 1, [], 0⟩ = []
    ∧ process_page ⟨.ok [], .miss, fun _ => .error "down", .ok ()⟩
        ⟨0, 100, 100, [⟨0, [[⟨"hey", 0, 0, 1, 1⟩]]⟩], 0⟩ =
      nativeChunks ⟨0, 100, 100, [⟨0, [[⟨"hey", 0, 0, 1, 1⟩]]⟩], 0⟩
    ∧ process_pdf (.ok [(⟨0, 1, 1, [], 0⟩,
        ⟨.error "raster", .miss, fun _ => .error "x", .ok ()⟩)]) 1 none =
      .ok (aggregate ([(((⟨0, 1, 1, [], 0⟩ : PageData)),
        (⟨.error "raster", .miss, fun _ => .error "x", .ok ()⟩ : PageEnv))].map
          (fun pe => process_page pe.2 pe.1)), 1) :=
  ⟨C5_page_failures.1 ⟨0, 1, 1, [], 0⟩ _ "raster" rfl rfl,
   C5_page_failures.2.1 ⟨0, 100, 100, [⟨0, [[⟨"hey", 0, 0, 1, 1⟩]]⟩], 0⟩ _ []
     "down" rfl rfl rfl rfl,
   C5_page_failures.2.2 _ (by simp)⟩

/-- C6 counterexample: a spanless OCR-routed page whose cache read raises.
The exception reaches the page-level handler: the page contributes an empty
sequence and recognition is never performed, even though the engine would
have produced a chunk. -/
theorem C6_counterexample :
    process_page ⟨.ok [], .err "connection refused",
        fun _ => .ok (1, 1, [some ⟨[(0, 0), (2, 0), (2, 2), (0, 2)], "inv", 9/10⟩]),
        .ok ()⟩ ⟨0, 1, 1, [], 0⟩ = []
    ∧ process_ocr_batch
        (fun _ => .ok (1, 1, [some ⟨[(0, 0), (2, 0), (2, 2), (0, 2)], "inv", 9/10⟩]))
        [⟨[], 1, 1, 1⟩] = [⟨"inv", [0, 0, 2, 2], 1, some (9/10)⟩]
    ∧ ([(⟨"inv", [0, 0, 2, 2], 1, some (9/10)⟩ : Chunk)] : List Chunk) ≠ [] := by
  refine ⟨rfl, ?_, by simp⟩
  simp only [process_ocr_batch, process_ocr_image, scriptsLine,
    List.foldl, List.filterMap, Option.bind]
  norm_num [show pyStrip "inv" = "inv" from by decide,
    show ¬("inv" : String) = "" from by decide]

/-- C6 amended: every cache-layer failure on an OCR-routed page — a raised
read, a cached entry whose evaluation raises, or a raised write after
recognition produced chunks — is caught by the page-level handler and the
page contributes an empty chunk sequence (recognition output, when any, is
discarded rather than returned); the request as a whole still returns
successfully whenever its page range is valid. -/
theorem C6_cache_failures :
    (∀ (pd : PageData) (env : PageEnv) (img : List Nat) (msg : String),
      ocrRouted pd = true → env.raster = .ok img → env.cacheGet = .err msg →
      process_page env pd = [])
    ∧ (∀ (pd : PageData) (env : PageEnv) (img : List Nat),
      ocrRouted pd = true → env.raster = .ok img → env.cacheGet = .hit .bad →
      process_page env pd = [])
    ∧ (∀ (pd : PageData) (env : PageEnv) (img : List Nat) (msg : String),
      ocrRouted pd = true → env.raster = .ok img → env.cacheGet = .miss →
      env.cacheSet = .error msg →
      process_ocr_batch env.ocrImage
        [⟨img, pd.number + 1, pd.width, pd.height⟩] ≠ [] →
      process_page env pd = [])
    ∧ (∀ (pages : List (PageData × PageEnv)) (s : Int) (e : Option Int),
      ¬ clampStart s pages.length > clampEnd e pages.length →
      ∃ res, process_pdf (.ok pages) s e = .ok res) := by
  refine ⟨?_, ?_, ?_, ?_⟩
  · intro pd env img msg h hr hget
    simp [process_page, h, hr, hget]
  · intro pd env img h hr hget
    simp [process_page, h, hr, hget]
  · intro pd env img msg h hr hget hset hne
    simp [process_page, h, hr, hget, hset, hne]
  · intro pages s e hc
    simp only [process_pdf]
    rw [if_neg hc]
    exact ⟨_, rfl⟩

/-- Witness for C6 at concrete inputs: a failed read, a poisoned entry, a
failed write after successful recognition, and a valid one-page request. -/
theorem C6_cache_failures_witness :
    process_page ⟨.ok [], .err "down", fun _ => .error "x", .ok ()⟩
        ⟨0, 1, 1, [], 0⟩ = []
    ∧ process_page ⟨.ok [], .hit .bad, fun _ => .error "x", .ok ()⟩
        ⟨0, 1, 1, [], 0⟩ = []
    ∧ process_page ⟨.ok [], .miss,
        fun _ => .ok (1, 1, [some ⟨[(0, 0), (2, 0), (2, 2), (0, 2)], "v", 9/10⟩]),
        .error "write refused"⟩ ⟨0, 1, 1, [], 0⟩ = []
    ∧ ∃ res, process_pdf (.ok [(⟨0, 1, 1, [], 0⟩,
        ⟨.error "x", .miss, fun _ => .error "x", .ok ()⟩)]) 1 none = .ok res := by
  refine ⟨C6_cache_failures.1 ⟨0, 1, 1, [], 0⟩ _ [] "down" rfl rfl rfl,
    C6_cache_failures.2.1 ⟨0, 1, 1, [], 0⟩ _ [] rfl rfl rfl,
    C6_cache_failures.2.2.1 ⟨0, 1, 1, [], 0⟩ _ [] "write refused" rfl rfl rfl
      rfl ?_,
    C6_cache_failures.2.2.2 _ 1 none (by decide)⟩
  have hb : process_ocr_batch
      (fun _ => .ok (1, 1, [some ⟨[(0, 0), (2, 0), (2, 2), (0, 2)], "v", 9/10⟩]))
      [⟨[], 1, 1, 1⟩] = [⟨"v", [0, 0, 2, 2], 1, some (9/10)⟩] := by
    simp only [process_ocr_batch, process_ocr_image, scriptsLine,
      List.foldl, List.filterMap, Option.bind]
    norm_num [show pyStrip "v" = "v" from by decide,
      show ¬("v" : String) = "" from by decide]
  rw [hb]
  simp

/-- C9: the task body catches every exception and returns an empty list, so
the configured autoretry (3 retries) never fires.  With a decode behaviour
that fails transiently on the first attempt and would succeed on the
second, the deployed task finishes after exactly one attempt with an empty
result, even though the second attempt would have produced a chunk. -/
theorem C9_no_retry :
    perform_ocr_task (fun k => if k = 0 then fun _ => .error "transient"
        else fun _ => .ok (1, 1,
          [some ⟨[(0, 0), (2, 0), (2, 2), (0, 2)], "inv 123", 9/10⟩]))
      [7] 8 1 1 = (.ok [], 1)
    ∧ perform_ocr ((fun k => if k = 0 then fun _ => .error "transient"
        else fun _ => .ok (1, 1,
          [some ⟨[(0, 0), (2, 0), (2, 2), (0, 2)], "inv 123", 9/10⟩])) 1)
      [7] 8 1 1 = [⟨"inv 123", [0, 0, 2, 2], 8, some (9/10)⟩] := by
  refine ⟨rfl, ?_⟩
  norm_num [perform_ocr, tasksLine, List.filterMap_cons, List.filterMap_nil,
    Option.some_bind, show pyStrip "inv 123" = "inv 123" from by decide,
    show ¬("inv 123" : String) = "" from by decide]

/-- Witness for C1 at a concrete page: a degenerate page with no spans, no
images and zero area is routed to OCR via the word-count disjunct, and its
text density is 0 because the page area is not positive. -/
theorem C1_classifier_witness :
    classify ⟨0, 0, 0, [], 0⟩ = .OCR ∧ textDensity ⟨0, 0, 0, [], 0⟩ = 0 :=
  ⟨(C1_classifier ⟨0, 0, 0, [], 0⟩).1.mpr (Or.inr (by decide)),
   (C1_classifier ⟨0, 0, 0, [], 0⟩).2.2.2.1 (by norm_num [pageArea])⟩
